import Mathlib

/-!
Shallow embedding of the cross-camera speed correlator of
`src/speed_calculator.py` (class `SpeedCalculator`).

Modelling conventions:
* Python floats are modelled as rationals (`ℚ`); all arithmetic in the
  source (division, multiplication by 3.6, comparisons) is plain field
  arithmetic.
* The Python dict `pending_detections` is modelled as an association list
  keyed by the normalized plate string; dict assignment replaces the entry
  in place for an existing key and appends for a new key, matching CPython
  insertion-order semantics.
* Wall-clock reads (`time.time()` inside `_cleanup_expired_detections`,
  `datetime.now()` for `measurement_time`) are modelled by an explicit
  `now : ℚ` argument to `processDetection`; the source formats
  `measurement_time` as a string, here we keep the instant itself.
* File I/O (`save_violations` / `load_violations`) is not modelled; the
  in-memory `violations` list is the authoritative record, and a list
  loaded at startup appears as the initial `violations` field.
-/

/-- A pending (unmatched) detection: the value stored in
`self.pending_detections[plate_text]` in the source. -/
structure PendingEntry where
  camera_id : Nat
  timestamp : ℚ
  image_path : Option String
deriving DecidableEq

/-- A completed speed measurement, mirroring the `measurement` dict built in
`process_detection`. -/
structure Measurement where
  plate : String
  camera1_time : ℚ
  camera2_time : ℚ
  time_diff_seconds : ℚ
  speed_ms : ℚ
  speed_kmh : ℚ
  distance_meters : ℚ
  camera1_image : Option String
  camera2_image : Option String
  measurement_time : ℚ
  over_speed_limit : Bool
deriving DecidableEq

/-- A violation record, mirroring the `violation` dict built in
`_create_violation`. `timestamp` holds the measurement's wall-clock instant
(the source stores the formatted string). -/
structure Violation where
  id : Nat
  plate : String
  speed_kmh : ℚ
  speed_limit_kmh : ℚ
  timestamp : ℚ
  location : String
  camera1_image : Option String
  camera2_image : Option String
  time_diff_seconds : ℚ
  fine_amount : Nat
deriving DecidableEq

/-- The correlator state: the fields of class `SpeedCalculator`. -/
structure SpeedCalculator where
  distance_meters : ℚ
  speed_limit_kmh : ℚ
  pending_detections : List (String × PendingEntry)
  completed_detections : List Measurement
  detection_timeout : ℚ
  violations : List Violation
deriving DecidableEq

/-- `SpeedCalculator.__init__`: fresh state with the default
`detection_timeout = 6.0`; `loaded` is whatever `load_violations` read from
disk at startup (empty when no file exists). -/
def SpeedCalculator.init (distance_meters speed_limit_kmh : ℚ)
    (loaded : List Violation) : SpeedCalculator :=
  { distance_meters := distance_meters
    speed_limit_kmh := speed_limit_kmh
    pending_detections := []
    completed_detections := []
    detection_timeout := 6
    violations := loaded }

/-- Python `str.strip()` on a character list: drop whitespace from both
ends. -/
def stripChars (l : List Char) : List Char :=
  ((l.dropWhile Char.isWhitespace).reverse.dropWhile Char.isWhitespace).reverse

/-- `plate_text.strip().upper().replace(" ", "")` from `process_detection`:
strip surrounding whitespace, uppercase, remove internal spaces. -/
def normalizePlate (s : String) : String :=
  String.mk (((stripChars s.data).map Char.toUpper).filter (fun c => c != ' '))

/-- Dict membership test / read: first entry with the given key. -/
def lookupPlate (p : String) : List (String × PendingEntry) → Option PendingEntry
  | [] => none
  | (q, e) :: rest => if q = p then some e else lookupPlate p rest

/-- Dict assignment `d[p] = e`: replace in place when the key exists,
append otherwise. -/
def setPlate (p : String) (e : PendingEntry) :
    List (String × PendingEntry) → List (String × PendingEntry)
  | [] => [(p, e)]
  | (q, f) :: rest => if q = p then (p, e) :: rest else (q, f) :: setPlate p e rest

/-- Dict deletion `del d[p]`: remove the entry with the given key. -/
def erasePlate (p : String) :
    List (String × PendingEntry) → List (String × PendingEntry)
  | [] => []
  | (q, f) :: rest => if q = p then rest else (q, f) :: erasePlate p rest

/-- `_cleanup_expired_detections`: remove every pending entry with
`now - entry.timestamp > timeout` (wall-clock `now`, i.e. `time.time()` at
call time). -/
def cleanupExpired (now timeout : ℚ) (pending : List (String × PendingEntry)) :
    List (String × PendingEntry) :=
  pending.filter (fun pe => !decide (now - pe.2.timestamp > timeout))

/-- `_calculate_fine`: tiered fine from `excess_speed = speed_kmh -
speed_limit_kmh`. -/
def calculateFine (s : SpeedCalculator) (speed_kmh : ℚ) : Nat :=
  let excess_speed := speed_kmh - s.speed_limit_kmh
  if excess_speed ≤ 10 then 100
  else if excess_speed ≤ 20 then 200
  else if excess_speed ≤ 30 then 400
  else 600

/-- `_create_violation`: build the violation record with sequential id
`len(self.violations) + 1`, append it, and (in the source) persist the list
to disk. -/
def createViolation (s : SpeedCalculator) (m : Measurement) :
    Violation × SpeedCalculator :=
  let v : Violation :=
    { id := s.violations.length + 1
      plate := m.plate
      speed_kmh := m.speed_kmh
      speed_limit_kmh := s.speed_limit_kmh
      timestamp := m.measurement_time
      location := "Test Location"
      camera1_image := m.camera1_image
      camera2_image := m.camera2_image
      time_diff_seconds := m.time_diff_seconds
      fine_amount := calculateFine s m.speed_kmh }
  (v, { s with violations := s.violations ++ [v] })

/-- Body of `process_detection` after the plate has been normalized and the
expired pending entries cleaned up (steps after line 74 of the source).
Python control flow note: when a cross-camera pending entry exists but the
time difference falls outside `[0.1, detection_timeout]`, execution falls
through both the inner `if` and the `elif` to the trailing
"add to pending" assignment, which overwrites the pending entry with the
new observation and returns `None`. -/
def processCore (s : SpeedCalculator) (camera_id : Nat) (plate : String)
    (timestamp : ℚ) (image_path : Option String) (now : ℚ) :
    Option Measurement × SpeedCalculator :=
  let other_camera_id : Nat := if camera_id = 1 then 2 else 1
  let fresh : PendingEntry :=
    { camera_id := camera_id, timestamp := timestamp, image_path := image_path }
  match lookupPlate plate s.pending_detections with
  | some pending =>
    if pending.camera_id = other_camera_id then
      let time_diff := |timestamp - pending.timestamp|
      if 0.1 ≤ time_diff ∧ time_diff ≤ s.detection_timeout then
        let speed_ms := if time_diff > 0 then s.distance_meters / time_diff else 0
        let speed_kmh := speed_ms * 3.6
        let m : Measurement :=
          { plate := plate
            camera1_time := if pending.camera_id = 1 then pending.timestamp else timestamp
            camera2_time := if pending.camera_id = 2 then pending.timestamp else timestamp
            time_diff_seconds := time_diff
            speed_ms := speed_ms
            speed_kmh := speed_kmh
            distance_meters := s.distance_meters
            camera1_image := if pending.camera_id = 1 then pending.image_path else image_path
            camera2_image := if pending.camera_id = 2 then pending.image_path else image_path
            measurement_time := now
            over_speed_limit := decide (speed_kmh > s.speed_limit_kmh) }
        let s2 := { s with completed_detections := s.completed_detections ++ [m] }
        let s3 := if speed_kmh > s2.speed_limit_kmh then (createViolation s2 m).2 else s2
        let s4 := { s3 with pending_detections := erasePlate plate s3.pending_detections }
        (some m, s4)
      else
        (none, { s with pending_detections := setPlate plate fresh s.pending_detections })
    else if pending.camera_id = camera_id then
      (none, { s with pending_detections := setPlate plate fresh s.pending_detections })
    else
      (none, { s with pending_detections := setPlate plate fresh s.pending_detections })
  | none =>
    (none, { s with pending_detections := setPlate plate fresh s.pending_detections })

/-- `process_detection(camera_id, plate_text, timestamp, image_path)`:
normalize the plate, expire stale pending entries against wall-clock `now`,
then match / overwrite / insert as in the source. Returns the measurement
(if a cross-camera match completed) together with the updated state. -/
def processDetection (s : SpeedCalculator) (camera_id : Nat) (plate_text : String)
    (timestamp : ℚ) (image_path : Option String) (now : ℚ) :
    Option Measurement × SpeedCalculator :=
  let plate := normalizePlate plate_text
  let s1 := { s with
    pending_detections :=
      cleanupExpired now s.detection_timeout s.pending_detections }
  processCore s1 camera_id plate timestamp image_path now

/-- `get_recent_measurements(count)`: Python slice `l[-count:]`. Note that
for `count = 0` the slice `l[-0:]` is `l[0:]`, the whole list. -/
def pySliceLast {α : Type} (l : List α) (count : Nat) : List α :=
  if count = 0 then l else l.drop (l.length - count)

/-- `get_recent_measurements`. -/
def getRecentMeasurements (s : SpeedCalculator) (count : Nat) : List Measurement :=
  pySliceLast s.completed_detections count

/-- `get_violations(count=None)`: all violations when `count` is `None`,
otherwise the slice `violations[-count:]`. -/
def getViolations (s : SpeedCalculator) (count : Option Nat) : List Violation :=
  match count with
  | none => s.violations
  | some c => pySliceLast s.violations c

/-- The dict returned by `get_statistics`. -/
structure Statistics where
  total_measurements : Nat
  total_violations : Nat
  violation_percentage : ℚ
  average_speed : ℚ
  max_speed : ℚ
deriving DecidableEq

/-- Python `max` over a list known to be nonempty (guarded in the source by
`if speeds else 0`). -/

def listMax : List ℚ → ℚ
  | [] => 0
  | x :: xs => xs.foldl max x

/-- `get_statistics`: all-zero record when there are no measurements,
otherwise aggregates over `completed_detections` and `violations`. -/
def getStatistics (s : SpeedCalculator) : Statistics :=
  let total_measurements := s.completed_detections.length
  let total_violations := s.violations.length
  if total_measurements = 0 then
    { total_measurements := 0
      total_violations := 0
      violation_percentage := 0
      average_speed := 0
      max_speed := 0 }
  else
    let speeds := s.completed_detections.map (fun m => m.speed_kmh)
    let avg_speed := speeds.sum / (speeds.length : ℚ)
    let max_speed := if speeds.isEmpty then 0 else listMax speeds
    let violation_percentage :=
      if 0 < total_measurements then
        ((total_violations : ℚ) / (total_measurements : ℚ)) * 100
      else 0
    { total_measurements := total_measurements
      total_violations := total_violations
      violation_percentage := violation_percentage
      average_speed := avg_speed
      max_speed := max_speed }

/-- One external `observe` call: the arguments of `process_detection`
together with the wall-clock instant at which it runs. -/
structure Obs where
  camera_id : Nat
  plate_text : String
  timestamp : ℚ
  image_path : Option String
  now : ℚ

/-- Run a sequence of `observe` calls, threading the state. -/

def runObservations (s : SpeedCalculator) : List Obs → SpeedCalculator
  | [] => s
  | o :: rest =>
    runObservations (processDetection s o.camera_id o.plate_text o.timestamp o.image_path o.now).2 rest

/-- The measurement built on a successful cross-camera match (with the
division guard already discharged: the lower bound `0.1` forces
`time_diff > 0`). -/
def matchMeasurement (s : SpeedCalculator) (p' : String) (t : ℚ)
    (img : Option String) (now : ℚ) (pe : PendingEntry) : Measurement :=
  { plate := p'
    camera1_time := if pe.camera_id = 1 then pe.timestamp else t
    camera2_time := if pe.camera_id = 2 then pe.timestamp else t
    time_diff_seconds := |t - pe.timestamp|
    speed_ms := s.distance_meters / |t - pe.timestamp|
    speed_kmh := s.distance_meters / |t - pe.timestamp| * 3.6
    distance_meters := s.distance_meters
    camera1_image := if pe.camera_id = 1 then pe.image_path else img
    camera2_image := if pe.camera_id = 2 then pe.image_path else img
    measurement_time := now
    over_speed_limit :=
      decide (s.distance_meters / |t - pe.timestamp| * 3.6 > s.speed_limit_kmh) }

/-- The violation record produced for measurement `m` when it is over the
limit. -/
def matchViolation (s : SpeedCalculator) (m : Measurement) : Violation :=
  (createViolation { s with completed_detections := s.completed_detections ++ [m] } m).1

/-- A concrete measurement used to exhibit the `count = 0` slice behavior. -/
def c8Measurement : Measurement :=
  { plate := "ABC123"
    camera1_time := 0
    camera2_time := 1/2
    time_diff_seconds := 1/2
    speed_ms := 20
    speed_kmh := 72
    distance_meters := 10
    camera1_image := none
    camera2_image := none
    measurement_time := 1/2
    over_speed_limit := true }

/-- A state holding exactly one completed measurement. -/
def c8State : SpeedCalculator :=
  { SpeedCalculator.init 10 50 [] with completed_detections := [c8Measurement] }

/-- A state with one pending camera-1 detection of plate "P" at time 0. -/
def c1State : SpeedCalculator :=
  { SpeedCalculator.init 10 50 [] with
      pending_detections := [("P", ⟨1, 0, some "old"⟩)] }

/-- The state after the first observation of the spec's boundary scenario:
distance 5, limit 60, camera 1 sees "AB" at `t = 0`. -/
def c5First : SpeedCalculator :=
  (processDetection (SpeedCalculator.init 5 60 []) 1 "AB" 0 none 0).2

/-- The measurement of the boundary scenario: camera 2 at `t = 0.3`, so
`speed_kmh = 5 / 0.3 * 3.6 = 60`, exactly the limit. -/
def c5M : Measurement :=
  { plate := "AB"
    camera1_time := 0
    camera2_time := 3/10
    time_diff_seconds := 3/10
    speed_ms := 50/3
    speed_kmh := 60
    distance_meters := 5
    camera1_image := none
    camera2_image := none
    measurement_time := 3/10
    over_speed_limit := false }

/-- Observation sequence for the C9 witness: camera 1 then camera 2 see
"AB" half a second apart, giving 72 km/h over a 50 km/h limit. -/
def c9Obs : List Obs :=
  [⟨1, "AB", 0, none, 0⟩, ⟨2, "AB", 1/2, none, 1/2⟩]

/-- The violation produced by `c9Obs` from a fresh calculator. -/
def c9V : Violation :=
  { id := 1
    plate := "AB"
    speed_kmh := 72
    speed_limit_kmh := 50
    timestamp := 1/2
    location := "Test Location"
    camera1_image := none
    camera2_image := none
    time_diff_seconds := 1/2
    fine_amount := 400 }

/-! ### Association-list lemmas for the pending table -/

theorem lookupPlate_filter_none {p : String} {l : List (String × PendingEntry)}
    (f : String × PendingEntry → Bool) (h : lookupPlate p l = none) :
    lookupPlate p (l.filter f) = none := by
  induction l with
  | nil => exact h
  | cons x rest ih =>
    obtain ⟨q, e⟩ := x
    rw [lookupPlate] at h
    by_cases hq : q = p
    · simp [hq] at h
    · rw [if_neg hq] at h
      rw [List.filter_cons]
      cases f (q, e) with
      | true => rw [if_pos rfl, lookupPlate, if_neg hq]; exact ih h
      | false => rw [if_neg (by simp)]; exact ih h

theorem lookupPlate_append_of_none {p : String} {l l2 : List (String × PendingEntry)}
    (h : lookupPlate p l = none) :
    lookupPlate p (l ++ l2) = lookupPlate p l2 := by
  induction l with
  | nil => simp
  | cons x rest ih =>
    obtain ⟨q, e⟩ := x
    rw [lookupPlate] at h
    by_cases hq : q = p
    · simp [hq] at h
    · rw [if_neg hq] at h
      rw [List.cons_append, lookupPlate, if_neg hq]
      exact ih h

theorem setPlate_of_lookup_none {p : String} {l : List (String × PendingEntry)}
    (e : PendingEntry) (h : lookupPlate p l = none) :
    setPlate p e l = l ++ [(p, e)] := by
  induction l with
  | nil => simp [setPlate]
  | cons x rest ih =>
    obtain ⟨q, f⟩ := x
    rw [lookupPlate] at h
    by_cases hq : q = p
    · simp [hq] at h
    · rw [if_neg hq] at h
      rw [setPlate, if_neg hq, List.cons_append, ih h]

theorem erasePlate_append_of_none {p : String} {l : List (String × PendingEntry)}
    (e : PendingEntry) (h : lookupPlate p l = none) :
    erasePlate p (l ++ [(p, e)]) = l := by
  induction l with
  | nil => simp [erasePlate]
  | cons x rest ih =>
    obtain ⟨q, f⟩ := x
    rw [lookupPlate] at h
    by_cases hq : q = p
    · simp [hq] at h
    · rw [if_neg hq] at h
      rw [List.cons_append, erasePlate, if_neg hq, ih h]

theorem setPlate_append_of_none {p : String} {l : List (String × PendingEntry)}
    (e e2 : PendingEntry) (h : lookupPlate p l = none) :
    setPlate p e2 (l ++ [(p, e)]) = l ++ [(p, e2)] := by
  induction l with
  | nil => simp [setPlate]
  | cons x rest ih =>
    obtain ⟨q, f⟩ := x
    rw [lookupPlate] at h
    by_cases hq : q = p
    · simp [hq] at h
    · rw [if_neg hq] at h
      rw [List.cons_append, setPlate, if_neg hq, ih h, List.cons_append]

theorem lookupPlate_setPlate_self (p : String) (e : PendingEntry)
    (l : List (String × PendingEntry)) :
    lookupPlate p (setPlate p e l) = some e := by
  induction l with
  | nil => simp [setPlate, lookupPlate]
  | cons x rest ih =>
    obtain ⟨q, f⟩ := x
    by_cases hq : q = p
    · rw [setPlate, if_pos hq, lookupPlate, if_pos rfl]
    · rw [setPlate, if_neg hq, lookupPlate, if_neg hq]
      exact ih

theorem cleanupExpired_append (now timeout : ℚ) (l l2 : List (String × PendingEntry)) :
    cleanupExpired now timeout (l ++ l2) =
      cleanupExpired now timeout l ++ cleanupExpired now timeout l2 := by
  simp [cleanupExpired, List.filter_append]

theorem cleanupExpired_singleton_keep {now timeout : ℚ} {p : String} {e : PendingEntry}
    (h : now - e.timestamp ≤ timeout) :
    cleanupExpired now timeout [(p, e)] = [(p, e)] := by
  simp [cleanupExpired, List.filter, not_lt.mpr h]

theorem cleanupExpired_singleton_drop {now timeout : ℚ} {p : String} {e : PendingEntry}
    (h : now - e.timestamp > timeout) :
    cleanupExpired now timeout [(p, e)] = [] := by
  simp [cleanupExpired, List.filter, h]

theorem mem_cleanupExpired (now timeout : ℚ) (x : String × PendingEntry)
    (l : List (String × PendingEntry)) :
    x ∈ cleanupExpired now timeout l ↔ x ∈ l ∧ now - x.2.timestamp ≤ timeout := by
  simp [cleanupExpired, List.mem_filter, not_lt]

theorem cleanupExpired_idem (now timeout : ℚ) (l : List (String × PendingEntry)) :
    cleanupExpired now timeout (cleanupExpired now timeout l) =
      cleanupExpired now timeout l := by
  induction l with
  | nil => rfl
  | cons x rest ih =>
    by_cases hx : now - x.2.timestamp > timeout
    · simp [cleanupExpired, List.filter_cons, hx, ih]
    · simp [cleanupExpired, List.filter_cons, hx, ih]

/-! ### Case analysis of one `process_detection` call -/

theorem processDetection_def (s : SpeedCalculator) (c : Nat) (pt : String) (t : ℚ)
    (img : Option String) (now : ℚ) :
    processDetection s c pt t img now =
      processCore
        { s with pending_detections :=
            cleanupExpired now s.detection_timeout s.pending_detections }
        c (normalizePlate pt) t img now := rfl

/-- In the source, `other_camera_id = 2 if camera_id == 1 else 1` is never
equal to `camera_id` itself. -/
theorem other_camera_ne (c : Nat) : c ≠ (if c = 1 then 2 else 1) := by
  by_cases h1 : c = 1 <;> simp [h1]

/-- No pending entry for the plate: the observation is inserted and the call
returns `None` (lines 132-139 of the source). -/
theorem processCore_insert (s : SpeedCalculator) (c : Nat) (p' : String) (t : ℚ)
    (img : Option String) (now : ℚ)
    (hlook : lookupPlate p' s.pending_detections = none) :
    processCore s c p' t img now =
      (none,
       { s with pending_detections := setPlate p' ⟨c, t, img⟩ s.pending_detections }) := by
  unfold processCore
  rw [hlook]

/-- Same-camera re-observation: the pending entry is overwritten and the call
returns `None` (lines 122-130 of the source). -/
theorem processCore_overwrite (s : SpeedCalculator) (c : Nat) (p' : String) (t : ℚ)
    (img : Option String) (now : ℚ) (pe : PendingEntry)
    (hlook : lookupPlate p' s.pending_detections = some pe)
    (hcam : pe.camera_id = c) :
    processCore s c p' t img now =
      (none,
       { s with pending_detections := setPlate p' ⟨c, t, img⟩ s.pending_detections }) := by
  unfold processCore
  rw [hlook]
  have hne : ¬ pe.camera_id = (if c = 1 then 2 else 1) := by
    rw [hcam]; exact other_camera_ne c
  dsimp only
  rw [if_neg hne, if_pos hcam]

/-- Cross-camera candidate whose time difference falls outside
`[0.1, detection_timeout]`: Python control flow falls through to the trailing
"add to pending" assignment, so the entry is overwritten with the new
observation and the call returns `None`. -/
theorem processCore_reject (s : SpeedCalculator) (c : Nat) (p' : String) (t : ℚ)
    (img : Option String) (now : ℚ) (pe : PendingEntry)
    (hlook : lookupPlate p' s.pending_detections = some pe)
    (hcam : pe.camera_id = (if c = 1 then 2 else 1))
    (hwin : ¬ (0.1 ≤ |t - pe.timestamp| ∧ |t - pe.timestamp| ≤ s.detection_timeout)) :
    processCore s c p' t img now =
      (none,
       { s with pending_detections := setPlate p' ⟨c, t, img⟩ s.pending_detections }) := by
  unfold processCore
  rw [hlook]
  dsimp only
  rw [if_pos hcam, if_neg hwin]

/-- Successful cross-camera match: the measurement is returned and appended,
a violation is appended exactly when the speed is over the limit, and the
pending entry is deleted. Requires the pending table to contain exactly one
entry for the plate (`l` holds the other plates). -/
theorem processCore_match (s : SpeedCalculator) (c : Nat) (p' : String) (t : ℚ)
    (img : Option String) (now : ℚ) (l : List (String × PendingEntry)) (pe : PendingEntry)
    (hpend : s.pending_detections = l ++ [(p', pe)])
    (hl : lookupPlate p' l = none)
    (hcam : pe.camera_id = (if c = 1 then 2 else 1))
    (hlo : 0.1 ≤ |t - pe.timestamp|)
    (hhi : |t - pe.timestamp| ≤ s.detection_timeout) :
    processCore s c p' t img now =
      (some (matchMeasurement s p' t img now pe),
       { s with
          completed_detections :=
            s.completed_detections ++ [matchMeasurement s p' t img now pe],
          violations := s.violations ++
            (if (matchMeasurement s p' t img now pe).speed_kmh > s.speed_limit_kmh
             then [matchViolation s (matchMeasurement s p' t img now pe)]
             else []),
          pending_detections := l }) := by
  have hdpos : (0:ℚ) < |t - pe.timestamp| := lt_of_lt_of_le (by norm_num) hlo
  have hlookup : lookupPlate p' s.pending_detections = some pe := by
    rw [hpend, lookupPlate_append_of_none hl, lookupPlate, if_pos rfl]
  have herase : erasePlate p' s.pending_detections = l := by
    rw [hpend]; exact erasePlate_append_of_none pe hl
  unfold processCore
  rw [hlookup]
  dsimp only
  rw [if_pos hcam, if_pos ⟨hlo, hhi⟩, if_pos hdpos]
  simp only [matchMeasurement, matchViolation, createViolation]
  by_cases hover : s.distance_meters / |t - pe.timestamp| * 3.6 > s.speed_limit_kmh
  · simp only [if_pos hover]
    rw [herase]
  · simp only [if_neg hover, List.append_nil]
    rw [herase]

theorem lookupPlate_cleanup_none {p : String} {l : List (String × PendingEntry)}
    (now timeout : ℚ) (h : lookupPlate p l = none) :
    lookupPlate p (cleanupExpired now timeout l) = none := by
  unfold cleanupExpired
  exact lookupPlate_filter_none _ h

/-- First observation of a plate: the call returns `None` and appends the
fresh entry to the (cleaned) pending table. -/
theorem processDetection_insert (s : SpeedCalculator) (c : Nat) (pt : String)
    (t : ℚ) (img : Option String) (now : ℚ)
    (h : lookupPlate (normalizePlate pt) s.pending_detections = none) :
    processDetection s c pt t img now =
      (none,
       { s with pending_detections :=
           cleanupExpired now s.detection_timeout s.pending_detections ++
             [(normalizePlate pt, ⟨c, t, img⟩)] }) := by
  rw [processDetection_def]
  rw [processCore_insert _ c _ t img now (lookupPlate_cleanup_none now s.detection_timeout h)]
  rw [setPlate_of_lookup_none _ (lookupPlate_cleanup_none now s.detection_timeout h)]

/-! ### Claim C6: fine tiers -/

/-- C6: with `excess = speed_kmh - speed_limit_kmh > 0`, the fine is 100 for
`excess ≤ 10`, 200 for `10 < excess ≤ 20`, 400 for `20 < excess ≤ 30`
(boundary `excess = 30` included), and 600 for `excess > 30`. -/
theorem c6_fine_tiers (s : SpeedCalculator) (speed_kmh : ℚ)
    (_hpos : 0 < speed_kmh - s.speed_limit_kmh) :
    (speed_kmh - s.speed_limit_kmh ≤ 10 → calculateFine s speed_kmh = 100) ∧
    (10 < speed_kmh - s.speed_limit_kmh → speed_kmh - s.speed_limit_kmh ≤ 20 →
      calculateFine s speed_kmh = 200) ∧
    (20 < speed_kmh - s.speed_limit_kmh → speed_kmh - s.speed_limit_kmh ≤ 30 →
      calculateFine s speed_kmh = 400) ∧
    (30 < speed_kmh - s.speed_limit_kmh → calculateFine s speed_kmh = 600) := by
  refine ⟨fun h1 => ?_, fun h1 h2 => ?_, fun h1 h2 => ?_, fun h1 => ?_⟩ <;>
    simp only [calculateFine] <;>
    split_ifs <;>
    first
      | rfl
      | linarith

/-- Witness for C6 at the tier boundary the spec calls out: limit 50,
speed 80, so `excess = 30` exactly, fine 400. -/
theorem c6_witness :
    (0:ℚ) < 80 - (SpeedCalculator.init 10 50 []).speed_limit_kmh ∧
    calculateFine (SpeedCalculator.init 10 50 []) 80 = 400 :=
  ⟨by with_unfolding_all decide,
   ((c6_fine_tiers (SpeedCalculator.init 10 50 []) 80
      (by with_unfolding_all decide)).2.2.1
      (by with_unfolding_all decide) (by with_unfolding_all decide))⟩

/-! ### Claim C7: statistics on an empty history -/

/-- C7: with no measurements, `get_statistics` returns the all-zero record
(the divisions are guarded and not reached). -/
theorem c7_statistics_empty (s : SpeedCalculator)
    (h : s.completed_detections = []) :
    getStatistics s =
      { total_measurements := 0
        total_violations := 0
        violation_percentage := 0
        average_speed := 0
        max_speed := 0 } := by
  unfold getStatistics
  rw [h]
  rfl

/-- Witness for C7: a fresh calculator. -/
theorem c7_witness :
    getStatistics (SpeedCalculator.init 10 50 []) =
      { total_measurements := 0
        total_violations := 0
        violation_percentage := 0
        average_speed := 0
        max_speed := 0 } :=
  c7_statistics_empty (SpeedCalculator.init 10 50 []) rfl

/-! ### Claim C8: recent measurements / violations slices -/

/-- C8 counterexample: `get_recent_measurements(0)` is the Python slice
`l[-0:]`, i.e. the whole list, not "the last 0 entries" (the empty list).
With one stored measurement the call returns that measurement. -/
theorem c8_counterexample :
    getRecentMeasurements c8State 0 = [c8Measurement] ∧
    getRecentMeasurements c8State 0 ≠ [] := by
  have h0 : getRecentMeasurements c8State 0 = [c8Measurement] := rfl
  exact ⟨h0, by rw [h0]; exact List.cons_ne_nil _ _⟩

/-- C8 (amended): for every `n ≥ 1`, `get_recent_measurements(n)` and
`get_violations(n)` return the last `min(n, length)` entries of the
respective history in insertion order, and `get_violations()` with no bound
returns the whole violations list. (`n = 0` instead returns the whole
list.) -/
theorem c8_last_entries (s : SpeedCalculator) (n : Nat) (hn : 1 ≤ n) :
    getRecentMeasurements s n =
      s.completed_detections.drop (s.completed_detections.length - n) ∧
    getViolations s (some n) = s.violations.drop (s.violations.length - n) ∧
    getViolations s none = s.violations := by
  refine ⟨?_, ?_, rfl⟩ <;>
    simp only [getRecentMeasurements, getViolations, pySliceLast] <;>
    rw [if_neg (by omega)]

/-- Witness for C8 (amended) at `n = 1` on the one-measurement state. -/
theorem c8_witness :
    getRecentMeasurements c8State 1 =
      c8State.completed_detections.drop (c8State.completed_detections.length - 1) ∧
    getViolations c8State (some 1) =
      c8State.violations.drop (c8State.violations.length - 1) ∧
    getViolations c8State none = c8State.violations :=
  c8_last_entries c8State 1 (by decide)

/-! ### Claim C4: expiry of stale pending entries -/

/-- C4: every `observe` call first removes exactly the pending entries whose
wall-clock age `now - entry.timestamp` exceeds `detection_timeout` (first
two conjuncts: the cleanup keeps precisely the non-expired entries, and
`process_detection` behaves as if run on the cleaned table), and hence a
first observation followed, more than `detection_timeout` of wall-clock time
after its timestamp, by the other camera's observation returns `None`
(third conjunct). -/
theorem c4_expiry (s : SpeedCalculator) (pt : String) (t1 t2 now1 now2 : ℚ)
    (img1 img2 : Option String)
    (hnone : lookupPlate (normalizePlate pt) s.pending_detections = none)
    (hexp : now2 - t1 > s.detection_timeout) :
    (∀ (x : String × PendingEntry) (now timeout : ℚ) (l : List (String × PendingEntry)),
        x ∈ cleanupExpired now timeout l ↔
          x ∈ l ∧ ¬ (now - x.2.timestamp > timeout)) ∧
    (∀ (s2 : SpeedCalculator) (c : Nat) (pt2 : String) (t : ℚ)
        (img : Option String) (now : ℚ),
        processDetection s2 c pt2 t img now =
          processDetection
            { s2 with pending_detections :=
                cleanupExpired now s2.detection_timeout s2.pending_detections }
            c pt2 t img now) ∧
    (processDetection (processDetection s 1 pt t1 img1 now1).2 2 pt t2 img2 now2).1 =
      none := by
  refine ⟨?_, ?_, ?_⟩
  · intro x now timeout l
    rw [mem_cleanupExpired, not_lt]
  · intro s2 c pt2 t img now
    simp only [processDetection_def]
    rw [cleanupExpired_idem]
  · rw [processDetection_insert s 1 pt t1 img1 now1 hnone]
    rw [processDetection_def]
    have hclean :
        cleanupExpired now2 s.detection_timeout
            (cleanupExpired now1 s.detection_timeout s.pending_detections ++
              [(normalizePlate pt, ⟨1, t1, img1⟩)]) =
          cleanupExpired now2 s.detection_timeout
            (cleanupExpired now1 s.detection_timeout s.pending_detections) := by
      rw [cleanupExpired_append, cleanupExpired_singleton_drop hexp, List.append_nil]
    rw [processCore_insert _ 2 _ t2 img2 now2
      (by
        rw [hclean]
        exact lookupPlate_cleanup_none now2 s.detection_timeout
          (lookupPlate_cleanup_none now1 s.detection_timeout hnone))]

/-- Witness for C4: fresh state, first observation at `t1 = 0`, second call
at wall-clock `now2 = 7 > 6 = detection_timeout`. -/
theorem c4_witness :
    lookupPlate (normalizePlate "AB") (SpeedCalculator.init 10 50 []).pending_detections =
      none ∧
    (7:ℚ) - 0 > (SpeedCalculator.init 10 50 []).detection_timeout ∧
    (processDetection
        (processDetection (SpeedCalculator.init 10 50 []) 1 "AB" 0 none 0).2
        2 "AB" 7 none 7).1 = none :=
  ⟨rfl, by with_unfolding_all decide,
   (c4_expiry (SpeedCalculator.init 10 50 []) "AB" 0 7 0 7 none none rfl
      (by with_unfolding_all decide)).2.2⟩

/-! ### Claim C3: same-camera re-observation overwrites -/

/-- C3: two same-camera observations of a fresh plate never produce a
measurement; the second call returns `None`, leaves the measurement history
untouched, and leaves the pending table holding the second observation's
`(camera_id, timestamp, image_ref)`. -/
theorem c3_same_camera_overwrites (s : SpeedCalculator) (pt : String)
    (t1 t2 now1 now2 : ℚ) (img1 img2 : Option String)
    (hnone : lookupPlate (normalizePlate pt) s.pending_detections = none) :
    (processDetection s 1 pt t1 img1 now1).1 = none ∧
    (processDetection (processDetection s 1 pt t1 img1 now1).2 1 pt t2 img2 now2).1 =
      none ∧
    lookupPlate (normalizePlate pt)
        (processDetection (processDetection s 1 pt t1 img1 now1).2
          1 pt t2 img2 now2).2.pending_detections = some ⟨1, t2, img2⟩ ∧
    (processDetection (processDetection s 1 pt t1 img1 now1).2
        1 pt t2 img2 now2).2.completed_detections = s.completed_detections := by
  rw [processDetection_insert s 1 pt t1 img1 now1 hnone]
  refine ⟨rfl, ?_⟩
  rw [processDetection_def]
  by_cases hkeep : now2 - t1 ≤ s.detection_timeout
  · have hclean :
        cleanupExpired now2 s.detection_timeout
            (cleanupExpired now1 s.detection_timeout s.pending_detections ++
              [(normalizePlate pt, ⟨1, t1, img1⟩)]) =
          cleanupExpired now2 s.detection_timeout
              (cleanupExpired now1 s.detection_timeout s.pending_detections) ++
            [(normalizePlate pt, ⟨1, t1, img1⟩)] := by
      rw [cleanupExpired_append, cleanupExpired_singleton_keep hkeep]
    have hlook :
        lookupPlate (normalizePlate pt)
            (cleanupExpired now2 s.detection_timeout
              (cleanupExpired now1 s.detection_timeout s.pending_detections ++
                [(normalizePlate pt, ⟨1, t1, img1⟩)])) =
          some ⟨1, t1, img1⟩ := by
      rw [hclean,
        lookupPlate_append_of_none
          (lookupPlate_cleanup_none now2 s.detection_timeout
            (lookupPlate_cleanup_none now1 s.detection_timeout hnone)),
        lookupPlate, if_pos rfl]
    rw [processCore_overwrite _ 1 _ t2 img2 now2 ⟨1, t1, img1⟩ hlook rfl]
    exact ⟨rfl, lookupPlate_setPlate_self _ _ _, rfl⟩
  · have hdrop :
        cleanupExpired now2 s.detection_timeout
            (cleanupExpired now1 s.detection_timeout s.pending_detections ++
              [(normalizePlate pt, ⟨1, t1, img1⟩)]) =
          cleanupExpired now2 s.detection_timeout
            (cleanupExpired now1 s.detection_timeout s.pending_detections) := by
      rw [cleanupExpired_append,
        cleanupExpired_singleton_drop (not_le.mp hkeep), List.append_nil]
    have hlook :
        lookupPlate (normalizePlate pt)
            (cleanupExpired now2 s.detection_timeout
              (cleanupExpired now1 s.detection_timeout s.pending_detections ++
                [(normalizePlate pt, ⟨1, t1, img1⟩)])) = none := by
      rw [hdrop]
      exact lookupPlate_cleanup_none now2 s.detection_timeout
        (lookupPlate_cleanup_none now1 s.detection_timeout hnone)
    rw [processCore_insert _ 1 _ t2 img2 now2 hlook]
    exact ⟨rfl, lookupPlate_setPlate_self _ _ _, rfl⟩

/-- Witness for C3: fresh state, two camera-1 observations of "AB". -/
theorem c3_witness :
    (processDetection (SpeedCalculator.init 10 50 []) 1 "AB" 0 none 0).1 = none ∧
    (processDetection
        (processDetection (SpeedCalculator.init 10 50 []) 1 "AB" 0 none 0).2
        1 "AB" 1 none 1).1 = none ∧
    lookupPlate (normalizePlate "AB")
        (processDetection
          (processDetection (SpeedCalculator.init 10 50 []) 1 "AB" 0 none 0).2
          1 "AB" 1 none 1).2.pending_detections = some ⟨1, 1, none⟩ ∧
    (processDetection
        (processDetection (SpeedCalculator.init 10 50 []) 1 "AB" 0 none 0).2
        1 "AB" 1 none 1).2.completed_detections =
      (SpeedCalculator.init 10 50 []).completed_detections :=
  c3_same_camera_overwrites (SpeedCalculator.init 10 50 []) "AB" 0 1 0 1 none none rfl

/-! ### Claim C1: rejected cross-camera match -/

/-- C1 counterexample: camera 2 observes "P" at `t = 1/20`, so the computed
time difference `1/20 < 0.1` rejects the match. The call returns `None` and
creates no measurement, but — contrary to the claim — the pending entry is
NOT left untouched holding the camera-1 data: Python control flow falls
through to the trailing "add to pending" assignment and stores the new
camera-2 observation. -/
theorem c1_counterexample :
    (processDetection c1State 2 "P" (1/20) (some "new") 1).1 = none ∧
    lookupPlate "P"
        (processDetection c1State 2 "P" (1/20) (some "new") 1).2.pending_detections ≠
      some ⟨1, 0, some "old"⟩ ∧
    lookupPlate "P"
        (processDetection c1State 2 "P" (1/20) (some "new") 1).2.pending_detections =
      some ⟨2, 1/20, some "new"⟩ := by
  refine ⟨?_, ?_, ?_⟩ <;> with_unfolding_all decide

/-- C1 (amended): when the pending entry for the plate survives cleanup,
comes from the other camera, and the time difference is `< 0.1` or
`> detection_timeout`, the call returns `None` and appends no measurement,
and the pending table ends up holding the NEW observation's
`(camera_id, timestamp, image_ref)` (the old entry is dropped). -/
theorem c1_reject_overwrites (s : SpeedCalculator) (c : Nat) (pt : String)
    (t : ℚ) (img : Option String) (now : ℚ) (pe : PendingEntry)
    (hlook : lookupPlate (normalizePlate pt)
        (cleanupExpired now s.detection_timeout s.pending_detections) = some pe)
    (hcam : pe.camera_id = (if c = 1 then 2 else 1))
    (hwin : |t - pe.timestamp| < 0.1 ∨ |t - pe.timestamp| > s.detection_timeout) :
    (processDetection s c pt t img now).1 = none ∧
    (processDetection s c pt t img now).2.completed_detections =
      s.completed_detections ∧
    lookupPlate (normalizePlate pt)
        (processDetection s c pt t img now).2.pending_detections =
      some ⟨c, t, img⟩ := by
  have hwin' : ¬ (0.1 ≤ |t - pe.timestamp| ∧
      |t - pe.timestamp| ≤ s.detection_timeout) := by
    rcases hwin with h | h
    · exact fun hc => absurd hc.1 (not_le.mpr h)
    · exact fun hc => absurd hc.2 (not_le.mpr h)
  rw [processDetection_def]
  rw [processCore_reject
      { s with pending_detections :=
          cleanupExpired now s.detection_timeout s.pending_detections }
      c (normalizePlate pt) t img now pe hlook hcam hwin']
  exact ⟨rfl, rfl, lookupPlate_setPlate_self _ _ _⟩

/-- Witness for C1 (amended), at the counterexample's input. -/
theorem c1_witness :
    (processDetection c1State 2 "P" (1/20) (some "new") 1).1 = none ∧
    (processDetection c1State 2 "P" (1/20) (some "new") 1).2.completed_detections =
      c1State.completed_detections ∧
    lookupPlate (normalizePlate "P")
        (processDetection c1State 2 "P" (1/20) (some "new") 1).2.pending_detections =
      some ⟨2, 1/20, some "new"⟩ :=
  c1_reject_overwrites c1State 2 "P" (1/20) (some "new") 1 ⟨1, 0, some "old"⟩
    (by with_unfolding_all decide) rfl
    (Or.inl (by with_unfolding_all decide))

/-! ### Claim C2: successful cross-camera match -/

/-- C2: camera 1 observes a fresh plate at `t1`, camera 2 observes it at
`t2` with `0.1 ≤ |t2 - t1| ≤ detection_timeout` and the pending entry not
yet expired at the second call. The second call returns a measurement with
`speed_kmh = distance_meters / |t2 - t1| * 3.6`, appends it to the
measurement history, and the pending table no longer contains the plate. -/
theorem c2_cross_camera_match (s : SpeedCalculator) (pt : String)
    (t1 t2 now1 now2 : ℚ) (img1 img2 : Option String)
    (hnone : lookupPlate (normalizePlate pt) s.pending_detections = none)
    (hlo : 0.1 ≤ |t2 - t1|) (hhi : |t2 - t1| ≤ s.detection_timeout)
    (hkeep : now2 - t1 ≤ s.detection_timeout) :
    ∃ m : Measurement,
      (processDetection (processDetection s 1 pt t1 img1 now1).2
          2 pt t2 img2 now2).1 = some m ∧
      m.speed_kmh = s.distance_meters / |t2 - t1| * 3.6 ∧
      (processDetection (processDetection s 1 pt t1 img1 now1).2
          2 pt t2 img2 now2).2.completed_detections =
        s.completed_detections ++ [m] ∧
      lookupPlate (normalizePlate pt)
          (processDetection (processDetection s 1 pt t1 img1 now1).2
            2 pt t2 img2 now2).2.pending_detections = none := by
  rw [processDetection_insert s 1 pt t1 img1 now1 hnone]
  rw [processDetection_def]
  have hl2 : lookupPlate (normalizePlate pt)
      (cleanupExpired now2 s.detection_timeout
        (cleanupExpired now1 s.detection_timeout s.pending_detections)) = none :=
    lookupPlate_cleanup_none now2 s.detection_timeout
      (lookupPlate_cleanup_none now1 s.detection_timeout hnone)
  have hpend :
      cleanupExpired now2 s.detection_timeout
          (cleanupExpired now1 s.detection_timeout s.pending_detections ++
            [(normalizePlate pt, ⟨1, t1, img1⟩)]) =
        cleanupExpired now2 s.detection_timeout
            (cleanupExpired now1 s.detection_timeout s.pending_detections) ++
          [(normalizePlate pt, ⟨1, t1, img1⟩)] := by
    rw [cleanupExpired_append, cleanupExpired_singleton_keep hkeep]
  rw [processCore_match
      { s with pending_detections := cleanupExpired now2 s.detection_timeout (cleanupExpired now1 s.detection_timeout s.pending_detections ++ [(normalizePlate pt, ⟨1, t1, img1⟩)]) }
      2 (normalizePlate pt) t2 img2 now2
      (cleanupExpired now2 s.detection_timeout
        (cleanupExpired now1 s.detection_timeout s.pending_detections))
      ⟨1, t1, img1⟩ hpend hl2 rfl hlo hhi]
  exact ⟨_, rfl, rfl, rfl, hl2⟩

/-- Witness for C2: distance 10, limit 50, observations at `t1 = 0` and
`t2 = 1/2`. -/
theorem c2_witness :
    ∃ m : Measurement,
      (processDetection
          (processDetection (SpeedCalculator.init 10 50 []) 1 "AB" 0 none 0).2
          2 "AB" (1/2) none (1/2)).1 = some m ∧
      m.speed_kmh =
        (SpeedCalculator.init 10 50 []).distance_meters / |(1:ℚ)/2 - 0| * 3.6 ∧
      (processDetection
          (processDetection (SpeedCalculator.init 10 50 []) 1 "AB" 0 none 0).2
          2 "AB" (1/2) none (1/2)).2.completed_detections =
        (SpeedCalculator.init 10 50 []).completed_detections ++ [m] ∧
      lookupPlate (normalizePlate "AB")
          (processDetection
            (processDetection (SpeedCalculator.init 10 50 []) 1 "AB" 0 none 0).2
            2 "AB" (1/2) none (1/2)).2.pending_detections = none :=
  c2_cross_camera_match (SpeedCalculator.init 10 50 []) "AB" 0 (1/2) 0 (1/2)
    none none rfl
    (by with_unfolding_all decide) (by with_unfolding_all decide)
    (by with_unfolding_all decide)

/-! ### Claim C10: arrival-order symmetry of matching -/

/-- C10: with the camera-1 observation at `(ta, imga)` and the camera-2
observation at `(tb, imgb)`, both arrival orders produce a measurement;
in both, `camera1_time`/`camera1_image` hold the camera-1 observation's data
and `camera2_time`/`camera2_image` the camera-2 observation's, with the same
`speed_kmh`. -/
theorem c10_order_symmetric (s : SpeedCalculator) (pt : String)
    (ta tb nowA1 nowA2 nowB1 nowB2 : ℚ) (imga imgb : Option String)
    (hnone : lookupPlate (normalizePlate pt) s.pending_detections = none)
    (hlo : 0.1 ≤ |tb - ta|) (hhi : |tb - ta| ≤ s.detection_timeout)
    (hkeepA : nowA2 - ta ≤ s.detection_timeout)
    (hkeepB : nowB2 - tb ≤ s.detection_timeout) :
    ∃ mA mB : Measurement,
      (processDetection (processDetection s 1 pt ta imga nowA1).2
          2 pt tb imgb nowA2).1 = some mA ∧
      (processDetection (processDetection s 2 pt tb imgb nowB1).2
          1 pt ta imga nowB2).1 = some mB ∧
      mA.camera1_time = ta ∧ mA.camera2_time = tb ∧
      mA.camera1_image = imga ∧ mA.camera2_image = imgb ∧
      mB.camera1_time = ta ∧ mB.camera2_time = tb ∧
      mB.camera1_image = imga ∧ mB.camera2_image = imgb ∧
      mA.speed_kmh = s.distance_meters / |tb - ta| * 3.6 ∧
      mB.speed_kmh = mA.speed_kmh := by
  have hloB : 0.1 ≤ |ta - tb| := by rwa [abs_sub_comm]
  have hhiB : |ta - tb| ≤ s.detection_timeout := by rwa [abs_sub_comm]
  rw [processDetection_insert s 1 pt ta imga nowA1 hnone,
    processDetection_insert s 2 pt tb imgb nowB1 hnone,
    processDetection_def, processDetection_def]
  have hlA : lookupPlate (normalizePlate pt)
      (cleanupExpired nowA2 s.detection_timeout
        (cleanupExpired nowA1 s.detection_timeout s.pending_detections)) = none :=
    lookupPlate_cleanup_none nowA2 s.detection_timeout
      (lookupPlate_cleanup_none nowA1 s.detection_timeout hnone)
  have hlB : lookupPlate (normalizePlate pt)
      (cleanupExpired nowB2 s.detection_timeout
        (cleanupExpired nowB1 s.detection_timeout s.pending_detections)) = none :=
    lookupPlate_cleanup_none nowB2 s.detection_timeout
      (lookupPlate_cleanup_none nowB1 s.detection_timeout hnone)
  have hpendA :
      cleanupExpired nowA2 s.detection_timeout
          (cleanupExpired nowA1 s.detection_timeout s.pending_detections ++
            [(normalizePlate pt, ⟨1, ta, imga⟩)]) =
        cleanupExpired nowA2 s.detection_timeout
            (cleanupExpired nowA1 s.detection_timeout s.pending_detections) ++
          [(normalizePlate pt, ⟨1, ta, imga⟩)] := by
    rw [cleanupExpired_append, cleanupExpired_singleton_keep hkeepA]
  have hpendB :
      cleanupExpired nowB2 s.detection_timeout
          (cleanupExpired nowB1 s.detection_timeout s.pending_detections ++
            [(normalizePlate pt, ⟨2, tb, imgb⟩)]) =
        cleanupExpired nowB2 s.detection_timeout
            (cleanupExpired nowB1 s.detection_timeout s.pending_detections) ++
          [(normalizePlate pt, ⟨2, tb, imgb⟩)] := by
    rw [cleanupExpired_append, cleanupExpired_singleton_keep hkeepB]
  rw [processCore_match
      { s with pending_detections := cleanupExpired nowA2 s.detection_timeout (cleanupExpired nowA1 s.detection_timeout s.pending_detections ++ [(normalizePlate pt, ⟨1, ta, imga⟩)]) }
      2 (normalizePlate pt) tb imgb nowA2
      (cleanupExpired nowA2 s.detection_timeout
        (cleanupExpired nowA1 s.detection_timeout s.pending_detections))
      ⟨1, ta, imga⟩ hpendA hlA rfl hlo hhi]
  rw [processCore_match
      { s with pending_detections := cleanupExpired nowB2 s.detection_timeout (cleanupExpired nowB1 s.detection_timeout s.pending_detections ++ [(normalizePlate pt, ⟨2, tb, imgb⟩)]) }
      1 (normalizePlate pt) ta imga nowB2
      (cleanupExpired nowB2 s.detection_timeout
        (cleanupExpired nowB1 s.detection_timeout s.pending_detections))
      ⟨2, tb, imgb⟩ hpendB hlB rfl hloB hhiB]
  refine ⟨_, _, rfl, rfl, rfl, rfl, rfl, rfl, rfl, rfl, rfl, rfl, rfl, ?_⟩
  show s.distance_meters / |ta - tb| * (3.6:ℚ) = s.distance_meters / |tb - ta| * 3.6
  rw [abs_sub_comm]

/-- Witness for C10: distance 10, limit 50, camera-1 observation at `ta = 0`
and camera-2 observation at `tb = 1/2`, both orders. -/
theorem c10_witness :
    ∃ mA mB : Measurement,
      (processDetection
          (processDetection (SpeedCalculator.init 10 50 []) 1 "AB" 0 none 0).2
          2 "AB" (1/2) none (1/2)).1 = some mA ∧
      (processDetection
          (processDetection (SpeedCalculator.init 10 50 []) 2 "AB" (1/2) none 0).2
          1 "AB" 0 none (1/2)).1 = some mB ∧
      mA.camera1_time = 0 ∧ mA.camera2_time = 1/2 ∧
      mA.camera1_image = none ∧ mA.camera2_image = none ∧
      mB.camera1_time = 0 ∧ mB.camera2_time = 1/2 ∧
      mB.camera1_image = none ∧ mB.camera2_image = none ∧
      mA.speed_kmh =
        (SpeedCalculator.init 10 50 []).distance_meters / |(1:ℚ)/2 - 0| * 3.6 ∧
      mB.speed_kmh = mA.speed_kmh :=
  c10_order_symmetric (SpeedCalculator.init 10 50 []) "AB" 0 (1/2) 0 (1/2) 0 (1/2)
    none none rfl
    (by with_unfolding_all decide) (by with_unfolding_all decide)
    (by with_unfolding_all decide) (by with_unfolding_all decide)

/-- Pending entry from a camera id that is neither `other_camera_id` nor
`camera_id` (unreachable through the public flow, where ids are 1 or 2):
Python falls through to the trailing insert. -/
theorem processCore_unmatched_camera (s : SpeedCalculator) (c : Nat) (p' : String)
    (t : ℚ) (img : Option String) (now : ℚ) (pe : PendingEntry)
    (hlook : lookupPlate p' s.pending_detections = some pe)
    (h1 : ¬ pe.camera_id = (if c = 1 then 2 else 1))
    (h2 : ¬ pe.camera_id = c) :
    processCore s c p' t img now =
      (none,
       { s with pending_detections := setPlate p' ⟨c, t, img⟩ s.pending_detections }) := by
  unfold processCore
  rw [hlook]
  dsimp only
  rw [if_neg h1, if_neg h2]

/-- Violations appended by one `processCore` call: exactly when the call
returns a measurement whose speed is over the limit. -/
theorem processCore_violation_analysis (s : SpeedCalculator) (c : Nat) (p' : String)
    (t : ℚ) (img : Option String) (now : ℚ) :
    (∀ m : Measurement, (processCore s c p' t img now).1 = some m →
        m.over_speed_limit = decide (m.speed_kmh > s.speed_limit_kmh) ∧
        (m.speed_kmh > s.speed_limit_kmh →
          (processCore s c p' t img now).2.violations =
            s.violations ++ [matchViolation s m]) ∧
        (¬ m.speed_kmh > s.speed_limit_kmh →
          (processCore s c p' t img now).2.violations = s.violations)) ∧
    ((processCore s c p' t img now).1 = none →
      (processCore s c p' t img now).2.violations = s.violations) := by
  cases hl : lookupPlate p' s.pending_detections with
  | none =>
    rw [processCore_insert s c p' t img now hl]
    exact ⟨fun m hm => Option.noConfusion hm, fun _ => rfl⟩
  | some pe =>
    by_cases h1 : pe.camera_id = (if c = 1 then 2 else 1)
    · by_cases h2 : 0.1 ≤ |t - pe.timestamp| ∧ |t - pe.timestamp| ≤ s.detection_timeout
      · have hdpos : (0:ℚ) < |t - pe.timestamp| := lt_of_lt_of_le (by norm_num) h2.1
        unfold processCore
        rw [hl]
        dsimp only
        rw [if_pos h1, if_pos h2, if_pos hdpos]
        by_cases hover : s.distance_meters / |t - pe.timestamp| * 3.6 > s.speed_limit_kmh
        · rw [if_pos hover]
          refine ⟨fun m hm => ?_, fun hm => Option.noConfusion hm⟩
          cases Option.some.inj hm
          refine ⟨rfl, fun _ => ?_, fun hn => absurd hover hn⟩
          simp only [matchViolation, createViolation]
        · rw [if_neg hover]
          refine ⟨fun m hm => ?_, fun hm => Option.noConfusion hm⟩
          cases Option.some.inj hm
          exact ⟨rfl, fun hov => absurd hov hover, fun _ => rfl⟩
      · rw [processCore_reject s c p' t img now pe hl h1 h2]
        exact ⟨fun m hm => Option.noConfusion hm, fun _ => rfl⟩
    · by_cases h2 : pe.camera_id = c
      · rw [processCore_overwrite s c p' t img now pe hl h2]
        exact ⟨fun m hm => Option.noConfusion hm, fun _ => rfl⟩
      · rw [processCore_unmatched_camera s c p' t img now pe hl h1 h2]
        exact ⟨fun m hm => Option.noConfusion hm, fun _ => rfl⟩

/-! ### Claim C5: violation creation gated by the speed limit -/

/-- C5: a call that returns a measurement appends a violation to the
violations list if and only if the measurement's `speed_kmh` is strictly
greater than `speed_limit_kmh`; `over_speed_limit` records exactly that
strict comparison (so a speed equal to the limit gives
`over_speed_limit = false` and no violation), and a call returning `None`
never appends a violation. -/
theorem c5_violation_iff_over_limit (s : SpeedCalculator) (c : Nat) (pt : String)
    (t : ℚ) (img : Option String) (now : ℚ) :
    (∀ m : Measurement, (processDetection s c pt t img now).1 = some m →
        m.over_speed_limit = decide (m.speed_kmh > s.speed_limit_kmh) ∧
        (m.speed_kmh > s.speed_limit_kmh →
          ∃ v : Violation,
            (processDetection s c pt t img now).2.violations =
              s.violations ++ [v] ∧
            v.speed_kmh = m.speed_kmh ∧
            v.fine_amount = calculateFine s m.speed_kmh) ∧
        (¬ m.speed_kmh > s.speed_limit_kmh →
          (processDetection s c pt t img now).2.violations = s.violations)) ∧
    ((processDetection s c pt t img now).1 = none →
      (processDetection s c pt t img now).2.violations = s.violations) := by
  have H := processCore_violation_analysis
    { s with pending_detections :=
        cleanupExpired now s.detection_timeout s.pending_detections }
    c (normalizePlate pt) t img now
  rw [processDetection_def]
  refine ⟨fun m hm => ?_, fun hm => H.2 hm⟩
  obtain ⟨h1, h2, h3⟩ := H.1 m hm
  exact ⟨h1, fun hov => ⟨_, h2 hov, rfl, rfl⟩, h3⟩

/-- Witness for C5 at the boundary: speed exactly equal to the limit gives
`over_speed_limit = false` and appends no violation. -/
theorem c5_witness :
    c5M.over_speed_limit = decide (c5M.speed_kmh > c5First.speed_limit_kmh) ∧
    (processDetection c5First 2 "AB" (3/10) none (3/10)).2.violations =
      c5First.violations :=
  ⟨((c5_violation_iff_over_limit c5First 2 "AB" (3/10) none (3/10)).1 c5M
      (by with_unfolding_all decide)).1,
   ((c5_violation_iff_over_limit c5First 2 "AB" (3/10) none (3/10)).1 c5M
      (by with_unfolding_all decide)).2.2 (by with_unfolding_all decide)⟩

/-- One `processCore` call either leaves the violations list unchanged or
appends exactly one violation with id `length + 1`. -/
theorem processCore_violations_step (s : SpeedCalculator) (c : Nat) (p' : String)
    (t : ℚ) (img : Option String) (now : ℚ) :
    (processCore s c p' t img now).2.violations = s.violations ∨
    ∃ v : Violation,
      (processCore s c p' t img now).2.violations = s.violations ++ [v] ∧
      v.id = s.violations.length + 1 := by
  have H := processCore_violation_analysis s c p' t img now
  cases hres : (processCore s c p' t img now).1 with
  | none => exact Or.inl (H.2 hres)
  | some m =>
    by_cases hov : m.speed_kmh > s.speed_limit_kmh
    · exact Or.inr ⟨matchViolation s m, (H.1 m hres).2.1 hov, rfl⟩
    · exact Or.inl ((H.1 m hres).2.2 hov)

/-- One `process_detection` call either leaves the violations list unchanged
or appends exactly one violation with id `length + 1`. -/
theorem processDetection_violations_step (s : SpeedCalculator) (c : Nat)
    (pt : String) (t : ℚ) (img : Option String) (now : ℚ) :
    (processDetection s c pt t img now).2.violations = s.violations ∨
    ∃ v : Violation,
      (processDetection s c pt t img now).2.violations = s.violations ++ [v] ∧
      v.id = s.violations.length + 1 := by
  rw [processDetection_def]
  exact processCore_violations_step
    { s with pending_detections :=
        cleanupExpired now s.detection_timeout s.pending_detections }
    c (normalizePlate pt) t img now

/-! ### Claim C9: sequential violation ids -/

/-- C9: across any sequence of `observe` calls, the initial violations list
(including anything loaded at startup) stays a prefix of the final list, and
every violation created during the run sits at position `i` (0-based, with
`i ≥` the initial count) and carries id `i + 1`: ids are 1-based counts and
strictly increasing in creation order. -/
theorem c9_violation_ids (s : SpeedCalculator) (obs : List Obs) :
    (∃ tail, (runObservations s obs).violations = s.violations ++ tail) ∧
    (∀ i : Nat, s.violations.length ≤ i →
      ∀ v : Violation, (runObservations s obs).violations[i]? = some v →
        v.id = i + 1) := by
  induction obs generalizing s with
  | nil =>
    refine ⟨⟨[], (List.append_nil _).symm⟩, ?_⟩
    intro i hi v hv
    rw [runObservations] at hv
    rw [List.getElem?_eq_none hi] at hv
    exact Option.noConfusion hv
  | cons o rest ih =>
    rw [runObservations]
    rcases processDetection_violations_step s o.camera_id o.plate_text o.timestamp
        o.image_path o.now with hstep | ⟨v, hv, hid⟩
    · obtain ⟨⟨tail, htail⟩, hids⟩ :=
        ih (processDetection s o.camera_id o.plate_text o.timestamp o.image_path o.now).2
      refine ⟨⟨tail, by rw [htail, hstep]⟩, ?_⟩
      intro i hi w hw
      refine hids i ?_ w hw
      rw [hstep]
      exact hi
    · obtain ⟨⟨tail, htail⟩, hids⟩ :=
        ih (processDetection s o.camera_id o.plate_text o.timestamp o.image_path o.now).2
      refine ⟨⟨[v] ++ tail, by rw [htail, hv, List.append_assoc]⟩, ?_⟩
      intro i hi w hw
      by_cases hlt :
          i < (processDetection s o.camera_id o.plate_text o.timestamp
              o.image_path o.now).2.violations.length
      · have hlen : i < s.violations.length + 1 := by
          rw [hv, List.length_append, List.length_singleton] at hlt
          exact hlt
        have hieq : i = s.violations.length := by omega
        rw [htail, List.getElem?_append_left hlt, hv] at hw
        subst hieq
        rw [List.getElem?_append_right (le_refl _)] at hw
        simp only [Nat.sub_self, List.getElem?_cons_zero] at hw
        cases Option.some.inj hw
        exact hid
      · push_neg at hlt
        exact hids i hlt w hw

/-- Witness for C9: the single violation created by `c9Obs` sits at index 0
and has id 1. -/
theorem c9_witness :
    (runObservations (SpeedCalculator.init 10 50 []) c9Obs).violations[0]? =
      some c9V ∧
    c9V.id = 0 + 1 :=
  ⟨by with_unfolding_all decide,
   (c9_violation_ids (SpeedCalculator.init 10 50 []) c9Obs).2 0 (by decide) c9V
     (by with_unfolding_all decide)⟩
